import Mathlib

/-!
Shallow embedding of the plugin subsystem of the MHEien/launcher repository
(`src/apps/launcher/src-tauri/src/plugins/{host_api,loader,manifest,runtime}.rs`),
with theorems settling the specification claims about it.

The filesystem is modelled symlink-free: paths are component lists, existing
entries are keyed by their normalized absolute component list, and
`canonicalize` is lexical normalization plus an existence check, which on a
symlink-free tree coincides with the platform behaviour.
-/

namespace Launcher

/-- Association-list lookup (first match), modelling `HashMap::get`. -/
def lookupA {α : Type} (k : String) : List (String × α) → Option α
  | [] => none
  | (k', v) :: rest => if k' = k then some v else lookupA k rest

/-- Remove every binding of a key, modelling `HashMap::remove`'s effect. -/
def removeA {α : Type} (k : String) : List (String × α) → List (String × α)
  | [] => []
  | (k', v) :: rest => if k' = k then removeA k rest else (k', v) :: removeA k rest

/-- Insert/overwrite a binding, modelling `HashMap::insert`'s effect on lookups. -/
def insertA {α : Type} (k : String) (v : α) (l : List (String × α)) : List (String × α) :=
  (k, v) :: removeA k l

/-- Update a key's value in place, modelling mutation through `HashMap::get_mut`. -/
def updateA {α : Type} (k : String) (f : α → α) : List (String × α) → List (String × α)
  | [] => []
  | (k', v) :: rest =>
      if k' = k then (k', f v) :: updateA k f rest else (k', v) :: updateA k f rest

theorem lookupA_insertA_self {α : Type} (k : String) (v : α) (l : List (String × α)) :
    lookupA k (insertA k v l) = some v := by
  simp [insertA, lookupA]

theorem lookupA_removeA_self {α : Type} (k : String) (l : List (String × α)) :
    lookupA k (removeA k l) = none := by
  induction l with
  | nil => rfl
  | cons kv rest ih =>
    rcases kv with ⟨k', v⟩
    by_cases h : k' = k
    · simpa [removeA, h] using ih
    · simpa [removeA, lookupA, h] using ih

theorem lookupA_removeA_other {α : Type} (k j : String) (l : List (String × α)) (h : j ≠ k) :
    lookupA j (removeA k l) = lookupA j l := by
  induction l with
  | nil => rfl
  | cons kv rest ih =>
    rcases kv with ⟨k', v⟩
    have hkj : k ≠ j := fun e => h e.symm
    by_cases hk : k' = k
    · simpa [removeA, hk, lookupA, hkj] using ih
    · by_cases hj : k' = j
      · simp [removeA, hk, lookupA, hj, h]
      · simpa [removeA, hk, lookupA, hj] using ih

theorem lookupA_insertA_other {α : Type} (k j : String) (v : α) (l : List (String × α))
    (h : j ≠ k) : lookupA j (insertA k v l) = lookupA j l := by
  have hk : k ≠ j := fun hkj => h hkj.symm
  simp only [insertA, lookupA, hk, if_neg hk]
  exact lookupA_removeA_other k j l h

/-- A path component, as in Rust's `std::path::Component` (Unix, no prefixes). -/
inductive Comp where
  | normal (s : String)
  | parentDir
  | curDir
deriving DecidableEq, Repr

/-- A parsed path: an `is_absolute` flag plus the component list. -/
structure RPath where
  absolute : Bool
  comps : List Comp
deriving DecidableEq, Repr

/-- Split a character list at `/`, keeping empty segments for later filtering. -/
def splitSlash : List Char → List Char → List (List Char)
  | [], cur => [cur.reverse]
  | c :: rest, cur =>
      if c = '/' then cur.reverse :: splitSlash rest []
      else splitSlash rest (c :: cur)

def toComp (s : String) : Comp :=
  if s = ".." then Comp.parentDir
  else if s = "." then Comp.curDir
  else Comp.normal s

/-- Parse a path string the way `Path::new(_).components()` reads it on Unix:
leading `/` makes it absolute, empty segments are dropped, `.` segments are
dropped except a single leading one on a relative path. -/
def parsePath (s : String) : RPath :=
  let absolute : Bool :=
    match s.data with
    | c :: _ => c = '/'
    | [] => false
  let raw := ((splitSlash s.data []).map String.mk).filter (fun p => p ≠ "")
  let comps := raw.map toComp
  let noCur := comps.filter (fun c => c ≠ Comp.curDir)
  let comps' :=
    if absolute then noCur
    else
      match comps with
      | Comp.curDir :: _ => Comp.curDir :: noCur
      | _ => noCur
  ⟨absolute, comps'⟩

/-- `PathBuf::join` for a relative right operand (an absolute one replaces). -/
def joinPath (base rel : RPath) : RPath :=
  if rel.absolute then rel else ⟨base.absolute, base.comps ++ rel.comps⟩

/-- `Path::parent`: strip the last component; `None` on an empty or root path. -/
def parentPath (p : RPath) : Option RPath :=
  match p.comps with
  | [] => none
  | _ => some ⟨p.absolute, p.comps.dropLast⟩

/-- `Path::file_name`: the last component when it is a normal name. -/
def fileName (p : RPath) : Option String :=
  match p.comps.getLast? with
  | some (Comp.normal s) => some s
  | _ => none

/-- Lexically resolve the components of an absolute path (`..` pops, `.` is
skipped, `..` at the root stays at the root, as on Unix). -/
def normAbs (cs : List Comp) : List String :=
  cs.foldl
    (fun acc c =>
      match c with
      | Comp.normal s => acc ++ [s]
      | Comp.parentDir => acc.dropLast
      | Comp.curDir => acc)
    []

/-- `Path::starts_with`: component-wise prefix (on equal absoluteness). -/
def startsWithP (p pre : RPath) : Bool :=
  pre.absolute = p.absolute && pre.comps.isPrefixOf p.comps

/-- A filesystem node: directory, or file with byte contents. -/
inductive Node where
  | dir
  | file (data : List Nat)
deriving DecidableEq, Repr

/-- A symlink-free filesystem: entries keyed by normalized absolute component
lists. -/
abbrev FS := List (List String × Node)

def lookupFS (fs : FS) (k : List String) : Option Node :=
  match fs with
  | [] => none
  | (k', n) :: rest => if k' = k then some n else lookupFS rest k

def existsFS (fs : FS) (k : List String) : Bool :=
  (lookupFS fs k).isSome

def isDirFS (fs : FS) (k : List String) : Bool :=
  lookupFS fs k = some Node.dir

def isFileFS (fs : FS) (k : List String) : Bool :=
  match lookupFS fs k with
  | some (Node.file _) => true
  | _ => false

/-- `Path::exists` in the model: the normalized key is present. -/
def existsRPath (fs : FS) (p : RPath) : Bool :=
  p.absolute && existsFS fs (normAbs p.comps)

/-- `fs::canonicalize` on a symlink-free tree: lexical normalization plus the
requirement that the path exists. -/
def canonicalizeFS (fs : FS) (p : RPath) : Except String RPath :=
  if existsRPath fs p then Except.ok ⟨true, (normAbs p.comps).map Comp.normal⟩
  else Except.error "No such file or directory (os error 2)"

/-- The nonempty prefixes of a key, shortest first. -/
def keyPrefixes (k : List String) : List (List String) :=
  (List.range k.length).map (fun i => k.take (i + 1))

/-- `fs::create_dir_all`: create the directory and all missing ancestors;
fails when a non-directory is in the way. -/
def createDirAllFS (fs : FS) (p : RPath) : Except String FS :=
  let key := normAbs p.comps
  if !p.absolute then Except.error "relative path"
  else if (keyPrefixes key).any (fun pre => isFileFS fs pre) then
    Except.error "File exists (os error 17)"
  else
    Except.ok (fs ++ ((keyPrefixes key).filter (fun pre => !existsFS fs pre)).map
      (fun pre => (pre, Node.dir)))

/-- `fs::read` at a canonical path. -/
def readFS (fs : FS) (p : RPath) : Except String (List Nat) :=
  match lookupFS fs (normAbs p.comps) with
  | some (Node.file d) => Except.ok d
  | some Node.dir => Except.error "Is a directory (os error 21)"
  | none => Except.error "No such file or directory (os error 2)"

/-- Replace or create a file entry at a key. -/
def setFileFS (fs : FS) (k : List String) (data : List Nat) : FS :=
  match fs with
  | [] => [(k, Node.file data)]
  | (k', n) :: rest =>
      if k' = k then (k, Node.file data) :: rest
      else (k', n) :: setFileFS rest k data

/-- `fs::write` at a canonical path: the parent chain must be directories and
the target must not be a directory. -/
def writeFS (fs : FS) (p : RPath) (data : List Nat) : Except String FS :=
  let key := normAbs p.comps
  if isDirFS fs key then Except.error "Is a directory (os error 21)"
  else if (keyPrefixes key.dropLast).all (fun pre => isDirFS fs pre) then
    Except.ok (setFileFS fs key data)
  else Except.error "No such file or directory (os error 2)"

/-- `fs::remove_dir_all`: drop the whole subtree rooted at the path. -/
def removeDirAllFS (fs : FS) (p : RPath) : Except String FS :=
  let key := normAbs p.comps
  if existsRPath fs p then
    Except.ok (fs.filter (fun e => !key.isPrefixOf e.1))
  else Except.error "No such file or directory (os error 2)"

/-- JSON values, as `serde_json::Value` (numbers kept as integers — no claim
involves non-integral numbers). -/
inductive Json where
  | null
  | bool (b : Bool)
  | num (n : Int)
  | str (s : String)
  | arr (xs : List Json)
  | obj (fields : List (String × Json))

/-- `PluginPermission` from `manifest.rs`. -/
inductive PluginPermission where
  | network
  | filesystemRead
  | filesystemWrite
  | clipboard
  | notifications
  | oauth (provider : String)
deriving DecidableEq, Repr

/-- Serialization of `PluginPermission` as generated by
`#[derive(Serialize)]` with `rename_all = "snake_case"`, the
`filesystem:read`/`filesystem:write` renames, and `#[serde(rename = "oauth")]`
on the newtype variant `OAuth(String)`: unit variants become their name as a
JSON string, the newtype variant becomes a single-key object. -/
def serializePermission : PluginPermission → Json
  | .network => Json.str "network"
  | .filesystemRead => Json.str "filesystem:read"
  | .filesystemWrite => Json.str "filesystem:write"
  | .clipboard => Json.str "clipboard"
  | .notifications => Json.str "notifications"
  | .oauth provider => Json.obj [("oauth", Json.str provider)]

/-- Deserialization of `PluginPermission` as generated by
`#[derive(Deserialize)]` (externally tagged): a JSON string selects a unit
variant by name, a single-key object selects a variant by tag (a unit variant
requires a `null` payload, `oauth` requires a string payload); anything else
is an unknown-variant / invalid-type error. -/
def parsePermission : Json → Except String PluginPermission
  | Json.str "network" => Except.ok .network
  | Json.str "filesystem:read" => Except.ok .filesystemRead
  | Json.str "filesystem:write" => Except.ok .filesystemWrite
  | Json.str "clipboard" => Except.ok .clipboard
  | Json.str "notifications" => Except.ok .notifications
  | Json.str s => Except.error ("unknown variant: " ++ s)
  | Json.obj [("network", Json.null)] => Except.ok .network
  | Json.obj [("filesystem:read", Json.null)] => Except.ok .filesystemRead
  | Json.obj [("filesystem:write", Json.null)] => Except.ok .filesystemWrite
  | Json.obj [("clipboard", Json.null)] => Except.ok .clipboard
  | Json.obj [("notifications", Json.null)] => Except.ok .notifications
  | Json.obj [("oauth", Json.str provider)] => Except.ok (.oauth provider)
  | _ => Except.error "invalid permission value"

/-- Parse a `permissions` array element-wise, as `Vec<PluginPermission>`. -/
def parsePermissions : List Json → Except String (List PluginPermission)
  | [] => Except.ok []
  | j :: rest =>
      match parsePermission j with
      | Except.error e => Except.error e
      | Except.ok p =>
          match parsePermissions rest with
          | Except.error e => Except.error e
          | Except.ok ps => Except.ok (p :: ps)

/-- `PluginCommand` from `manifest.rs`. -/
structure PluginCommand where
  trigger : String
  name : String
  description : String
  icon : Option String
deriving DecidableEq, Repr

/-- `WidgetDefinition` from `manifest.rs`. -/
structure WidgetDefinition where
  id : String
  name : String
  description : Option String
  sizes : List String
  refresh_interval : Nat
  category : Option String
deriving DecidableEq, Repr

/-- `PluginProvides` from `manifest.rs`. -/
structure PluginProvides where
  providers : List String
  actions : List String
  ai_tools : List String
  widgets : List WidgetDefinition
  commands : List PluginCommand
deriving DecidableEq, Repr

def PluginProvides.default : PluginProvides :=
  ⟨[], [], [], [], []⟩

/-- `OAuthConfig` from `manifest.rs`. -/
structure OAuthConfig where
  scopes : List String
deriving DecidableEq, Repr

/-- `PluginManifest` from `manifest.rs` (the `ai_tool_schemas` payload is kept
as raw JSON; no claim inspects schema internals). -/
structure PluginManifest where
  id : String
  name : String
  version : String
  author : Option String
  description : Option String
  permissions : List PluginPermission
  entry : String
  provides : PluginProvides
  oauth : List (String × OAuthConfig)
  ai_tool_schemas : List (String × Json)

/-- `PluginManifest::has_permission`. -/
def PluginManifest.has_permission (m : PluginManifest) (p : PluginPermission) : Bool :=
  m.permissions.contains p

/-- `PluginFsPermissions` from `host_api.rs`. -/
structure PluginFsPermissions where
  can_read : Bool
  can_write : Bool
  data_dir : RPath
deriving DecidableEq, Repr

/-- The contents of one `plugin_configs/{id}.json` file: either text that is
not valid JSON, or a JSON document. -/
inductive ConfigContent where
  | notJson
  | jsonVal (j : Json)

/-- `PluginConfig` from `host_api.rs`: `{ values: HashMap<String, Value> }`. -/
structure PluginConfig where
  values : List (String × Json)

/-- The `Default` instance of `PluginConfig`: an empty map. -/
def PluginConfig.default : PluginConfig := ⟨[]⟩

def lookupField (k : String) : List (String × Json) → Option Json
  | [] => none
  | (k', v) :: rest => if k' = k then some v else lookupField k rest

/-- Deserialization of `PluginConfig` as generated by `#[derive(Deserialize)]`:
an object with a required `values` field holding an object; unknown fields are
ignored. -/
def parsePluginConfig : Json → Except String PluginConfig
  | Json.obj fields =>
      match lookupField "values" fields with
      | some (Json.obj kvs) => Except.ok ⟨kvs⟩
      | some _ => Except.error "invalid type for field `values`"
      | none => Except.error "missing field `values`"
  | _ => Except.error "invalid type: expected struct PluginConfig"

/-- `HttpRequest` from `host_api.rs`. -/
structure HttpRequest where
  url : String
  method : String
  headers : List (String × String)
  body : Option String

/-- `HttpResponse` from `host_api.rs`. -/
structure HttpResponse where
  status : Nat
  headers : List (String × String)
  body : String

/-- The state owned by `DefaultHostApi`: the per-plugin sandbox permission
records, the filesystem, and the contents of the per-plugin config files in
`config_dir` (keyed by plugin id; an absent entry models a missing or
unreadable file). -/
structure HostState where
  plugin_permissions : List (String × PluginFsPermissions)
  fs : FS
  configs : List (String × ConfigContent)

/-- `DefaultHostApi::resolve_sandboxed_path`. Returns the host-api result
together with the filesystem after the call, because the non-existent-path
branch runs `create_dir_all` on the resolved parent before the containment
check. -/
def resolve_sandboxed_path (st : HostState) (plugin_id : String) (path : String) :
    Except String RPath × FS :=
  match lookupA plugin_id st.plugin_permissions with
  | none => (Except.error ("Plugin '" ++ plugin_id ++ "' not registered"), st.fs)
  | some perms =>
    let requested := parsePath path
    if requested.absolute then
      (Except.error
        "Absolute paths not allowed. Use relative paths within your plugin's data directory.",
       st.fs)
    else
      let resolved := joinPath perms.data_dir requested
      let canonical_data_dir :=
        match canonicalizeFS st.fs perms.data_dir with
        | Except.ok c => c
        | Except.error _ => perms.data_dir
      if existsRPath st.fs resolved then
        match canonicalizeFS st.fs resolved with
        | Except.error e => (Except.error ("Failed to resolve path: " ++ e), st.fs)
        | Except.ok c =>
          if startsWithP c canonical_data_dir then (Except.ok c, st.fs)
          else
            (Except.error "Path traversal denied. Access restricted to plugin data directory.",
             st.fs)
      else
        match parentPath resolved with
        | none => (Except.error "Invalid path: no parent directory", st.fs)
        | some parent =>
          let afterCreate : Except String FS :=
            if existsRPath st.fs parent then Except.ok st.fs
            else createDirAllFS st.fs parent
          match afterCreate with
          | Except.error e => (Except.error ("Failed to create directory: " ++ e), st.fs)
          | Except.ok fs1 =>
            match canonicalizeFS fs1 parent with
            | Except.error e => (Except.error ("Failed to resolve parent path: " ++ e), fs1)
            | Except.ok canonical_parent =>
              match fileName resolved with
              | none => (Except.error "Invalid path: no filename", fs1)
              | some file_name =>
                let candidate : RPath :=
                  ⟨canonical_parent.absolute, canonical_parent.comps ++ [Comp.normal file_name]⟩
                if startsWithP candidate canonical_data_dir then (Except.ok candidate, fs1)
                else
                  (Except.error
                    "Path traversal denied. Access restricted to plugin data directory.",
                   fs1)

/-- `DefaultHostApi::read_file`. -/
def read_file (st : HostState) (plugin_id : String) (path : String) :
    Except String (List Nat) × FS :=
  match lookupA plugin_id st.plugin_permissions with
  | none => (Except.error ("Plugin '" ++ plugin_id ++ "' not registered"), st.fs)
  | some perms =>
    if !perms.can_read then
      (Except.error ("Plugin '" ++ plugin_id ++ "' does not have filesystem:read permission"),
       st.fs)
    else
      match resolve_sandboxed_path st plugin_id path with
      | (Except.error e, fs1) => (Except.error e, fs1)
      | (Except.ok resolved, fs1) =>
        match readFS fs1 resolved with
        | Except.ok data => (Except.ok data, fs1)
        | Except.error e => (Except.error ("Failed to read file: " ++ e), fs1)

/-- `DefaultHostApi::write_file`. -/
def write_file (st : HostState) (plugin_id : String) (path : String) (data : List Nat) :
    Except String Unit × FS :=
  match lookupA plugin_id st.plugin_permissions with
  | none => (Except.error ("Plugin '" ++ plugin_id ++ "' not registered"), st.fs)
  | some perms =>
    if !perms.can_write then
      (Except.error ("Plugin '" ++ plugin_id ++ "' does not have filesystem:write permission"),
       st.fs)
    else
      match resolve_sandboxed_path st plugin_id path with
      | (Except.error e, fs1) => (Except.error e, fs1)
      | (Except.ok resolved, fs1) =>
        match writeFS fs1 resolved data with
        | Except.ok fs2 => (Except.ok (), fs2)
        | Except.error e => (Except.error ("Failed to write file: " ++ e), fs1)

/-- `DefaultHostApi::get_config`: reads `config_dir/{id}.json`; a missing or
unreadable file gives the default, and a file whose contents fail to parse as
a `PluginConfig` gives the default (`unwrap_or_default`). No permission or
registration lookup is involved. -/
def get_config (st : HostState) (plugin_id : String) : PluginConfig :=
  match lookupA plugin_id st.configs with
  | some (ConfigContent.jsonVal j) =>
      match parsePluginConfig j with
      | Except.ok c => c
      | Except.error _ => PluginConfig.default
  | some ConfigContent.notJson => PluginConfig.default
  | none => PluginConfig.default

/-- `str::to_uppercase` restricted to ASCII (method names are ASCII). -/
def upperAscii (s : String) : String :=
  String.mk (s.data.map Char.toUpper)

def httpMethodSupported (m : String) : Bool :=
  upperAscii m = "GET" || upperAscii m = "POST" || upperAscii m = "PUT" ||
    upperAscii m = "DELETE" || upperAscii m = "PATCH"

/-- `DefaultHostApi::http_request`. The outbound network is an oracle
`net : HttpRequest → Except String HttpResponse` standing for the blocking
reqwest client. The function builds the request for the five supported
methods and performs it; no permission set or manifest is consulted anywhere
in its body. -/
def http_request (net : HttpRequest → Except String HttpResponse) (st : HostState)
    (plugin_id : String) (request : HttpRequest) : Except String HttpResponse :=
  if !httpMethodSupported request.method then
    Except.error ("Unsupported HTTP method: " ++ request.method)
  else
    match net request with
    | Except.error e => Except.error ("HTTP request failed: " ++ e)
    | Except.ok resp => Except.ok resp

/-- A compiled+instantiated guest module (an Extism `Plugin`): the set of
exported function names, and the behaviour of a call to an export as a map
from the input payload to an output payload or a guest trap. -/
structure WasmModule where
  exports : List String
  call : String → String → Except String String

/-- `Plugin::function_exists`. -/
def WasmModule.function_exists (m : WasmModule) (name : String) : Bool :=
  m.exports.contains name

/-- A host-side log line: `(plugin_id, level, message)`. -/
abbrev LogEntry := String × String × String

/-- The runtime's instance table (`PluginRuntime.instances`). -/
abbrev RuntimeInstances := List (String × WasmModule)

/-- `PluginAction` from `host_api.rs`. -/
inductive PluginAction where
  | openUrl (url : String)
  | copy (text : String)
  | runCommand (cmd : String)
  | custom (value : String)

/-- `PluginSearchResult` from `host_api.rs`. -/
structure PluginSearchResult where
  id : String
  title : String
  subtitle : Option String
  icon : Option String
  score : Option Float
  category : Option String
  action : Option PluginAction

/-- The `serde_json` wire codec used on the guest-call boundary by
`call_search`: encoding of `SearchInput` and decoding of `SearchOutput`
to/from JSON text. The runtime theorems hold for every codec. -/
structure JsonCodec where
  encodeSearchInput : String → String
  decodeSearchOutput : String → Except String (List PluginSearchResult)

/-- `LoadedPlugin` from `manifest.rs`. -/
structure LoadedPlugin where
  manifest : PluginManifest
  path : RPath
  wasm_bytes : List Nat
  enabled : Bool

/-- `PluginRuntime::load_plugin`. `compile` is the Extism
compile-and-instantiate step (`Plugin::new`) as an oracle on the module
bytes. Returns the result, the instance table after the call, and the host
log lines emitted. A failing `init` export is logged at `warn` and swallowed;
the instance is inserted unconditionally once instantiation succeeded. -/
def load_plugin (compile : List Nat → Except String WasmModule)
    (instances : RuntimeInstances) (plugin : LoadedPlugin) :
    Except String Unit × RuntimeInstances × List LogEntry :=
  match compile plugin.wasm_bytes with
  | Except.error e =>
      (Except.error ("Failed to create Extism plugin: " ++ e), instances, [])
  | Except.ok m =>
      let logs :=
        if m.function_exists "init" then
          match m.call "init" "" with
          | Except.ok _ =>
              [(plugin.manifest.id, "info", "Plugin initialized successfully")]
          | Except.error e =>
              [(plugin.manifest.id, "warn", "Init failed (may not be implemented): " ++ e)]
        else []
      (Except.ok (), insertA plugin.manifest.id m instances, logs)

/-- `PluginRuntime::call_search`. A missing `search` export yields `Ok([])`;
a guest trap is logged and also yields `Ok([])`; malformed output JSON is an
error. -/
def call_search (codec : JsonCodec) (instances : RuntimeInstances)
    (plugin_id : String) (query : String) : Except String (List PluginSearchResult) :=
  match lookupA plugin_id instances with
  | none => Except.error ("Plugin not loaded: " ++ plugin_id)
  | some inst =>
    if !inst.function_exists "search" then Except.ok []
    else
      let input_json := codec.encodeSearchInput query
      match inst.call "search" input_json with
      | Except.ok output_json =>
          match codec.decodeSearchOutput output_json with
          | Except.ok results => Except.ok results
          | Except.error e => Except.error ("Failed to parse search output: " ++ e)
      | Except.error _ => Except.ok []

/-- `PluginRuntime::call_ai_tool`. -/
def call_ai_tool (instances : RuntimeInstances) (plugin_id : String)
    (tool_input_json : String) : Except String String :=
  match lookupA plugin_id instances with
  | none => Except.error ("Plugin not loaded: " ++ plugin_id)
  | some inst =>
    if !inst.function_exists "execute_ai_tool" then
      Except.error
        ("Plugin " ++ plugin_id ++ " does not support AI tools (no execute_ai_tool function)")
    else
      match inst.call "execute_ai_tool" tool_input_json with
      | Except.ok output_json => Except.ok output_json
      | Except.error e => Except.error ("AI tool execution failed: " ++ e)

/-- `PluginRuntime::unload_plugin`. When an instance exists, `shutdown` is
called best-effort with its result discarded and the instance is removed;
when none exists the table is untouched. Either way the result is `Ok(())`. -/
def unload_plugin (instances : RuntimeInstances) (plugin_id : String) :
    Except String Unit × RuntimeInstances × List LogEntry :=
  match lookupA plugin_id instances with
  | some inst =>
      let _shutdown_result :=
        if inst.function_exists "shutdown" then some (inst.call "shutdown" "") else none
      (Except.ok (), removeA plugin_id instances, [(plugin_id, "info", "Plugin unloaded")])
  | none => (Except.ok (), instances, [])

/-- The loader's catalog (`PluginLoader.plugins`). -/
structure LoaderState where
  plugins : List (String × LoadedPlugin)

/-- `PluginLoader::disable_plugin`: flip `enabled` on the entry in place
(`get_mut`), error when the id is absent. -/
def disable_plugin (l : LoaderState) (id : String) : Except String Unit × LoaderState :=
  match lookupA id l.plugins with
  | some _ =>
      (Except.ok (), ⟨updateA id (fun p => { p with enabled := false }) l.plugins⟩)
  | none => (Except.error ("Plugin not found: " ++ id), l)

/-- `PluginLoader::enable_plugin`. -/
def enable_plugin (l : LoaderState) (id : String) : Except String Unit × LoaderState :=
  match lookupA id l.plugins with
  | some _ =>
      (Except.ok (), ⟨updateA id (fun p => { p with enabled := true }) l.plugins⟩)
  | none => (Except.error ("Plugin not found: " ++ id), l)

/-- `PluginLoader::uninstall_plugin`: remove the catalog entry, then delete
the plugin's directory; a deletion failure is reported after the entry is
already gone. -/
def uninstall_plugin (l : LoaderState) (fs : FS) (id : String) :
    Except String Unit × LoaderState × FS :=
  match lookupA id l.plugins with
  | some plugin =>
      let l' : LoaderState := ⟨removeA id l.plugins⟩
      match removeDirAllFS fs plugin.path with
      | Except.ok fs' => (Except.ok (), l', fs')
      | Except.error e =>
          (Except.error ("Failed to remove plugin directory: " ++ e), l', fs)
  | none => (Except.error ("Plugin not found: " ++ id), l, fs)

/-- The application state holding both components (`AppState` in `lib.rs`):
the loader's catalog, the runtime's instance table, and the filesystem. -/
structure System where
  loader : LoaderState
  instances : RuntimeInstances
  fs : FS

/-- `PluginLoader::disable_plugin` as it acts on the whole `AppState`: the
method borrows only the loader (`PluginLoader` holds no reference to
`PluginRuntime`), so the instance table and the filesystem pass through. -/
def sysDisablePlugin (sys : System) (id : String) : Except String Unit × System :=
  let step := disable_plugin sys.loader id
  (step.1, { sys with loader := step.2 })

/-- `PluginLoader::uninstall_plugin` as it acts on the whole `AppState`: the
method borrows the loader and touches the filesystem via `remove_dir_all`,
but holds no reference to `PluginRuntime`, so the instance table passes
through. -/
def sysUninstallPlugin (sys : System) (id : String) : Except String Unit × System :=
  let step := uninstall_plugin sys.loader sys.fs id
  (step.1, { sys with loader := step.2.1, fs := step.2.2 })

/-! ### Concrete fixtures used by witnesses and counterexamples -/

/-- Sandbox data directory of plugin `p1`: `/data/plugin_data/p1`. -/
def p1DataDir : RPath :=
  ⟨true, [Comp.normal "data", Comp.normal "plugin_data", Comp.normal "p1"]⟩

/-- A filesystem holding just the data-directory chain for plugin `p1`. -/
def fs0 : FS :=
  [(["data"], Node.dir), (["data", "plugin_data"], Node.dir),
   (["data", "plugin_data", "p1"], Node.dir)]

/-- Host state with `p1` registered with full read/write permissions. -/
def st0 : HostState :=
  { plugin_permissions := [("p1", ⟨true, true, p1DataDir⟩)], fs := fs0, configs := [] }

/-- Host state with `p1` registered with `can_write = false`. -/
def stReadOnly : HostState :=
  { plugin_permissions := [("p1", ⟨true, false, p1DataDir⟩)], fs := fs0, configs := [] }

/-- A manifest declaring no permissions at all. -/
def manifestP1 : PluginManifest :=
  { id := "p1", name := "Plugin One", version := "1.0.0", author := none,
    description := none, permissions := [], entry := "plugin.wasm",
    provides := PluginProvides.default, oauth := [], ai_tool_schemas := [] }

/-- The on-disk record of plugin `p1`. -/
def loadedP1 : LoadedPlugin :=
  ⟨manifestP1, ⟨true, [Comp.normal "data", Comp.normal "plugins", Comp.normal "p1"]⟩, [0], true⟩

/-- A guest module whose `init` export traps. -/
def initFailModule : WasmModule :=
  ⟨["init"], fun _ _ => Except.error "guest trap in init"⟩

/-- A guest module exporting nothing at all. -/
def bareModule : WasmModule :=
  ⟨[], fun _ _ => Except.error "no such export"⟩

/-- A compile oracle that instantiates every byte string to `initFailModule`. -/
def compileInitFail : List Nat → Except String WasmModule :=
  fun _ => Except.ok initFailModule

/-- A compile oracle that always fails instantiation. -/
def compileBroken : List Nat → Except String WasmModule :=
  fun _ => Except.error "invalid wasm"

/-- A codec whose decoder never succeeds (its behaviour is irrelevant to the
witnesses that use it). -/
def trivialCodec : JsonCodec :=
  ⟨fun q => q, fun _ => Except.error "undecodable"⟩

/-- A network oracle answering every request with a fixed 200 response. -/
def netStub : HttpRequest → Except String HttpResponse :=
  fun _ => Except.ok ⟨200, [], "ok"⟩

/-- A GET request, as a plugin would issue through the host. -/
def reqGet : HttpRequest := ⟨"https://example.com/", "GET", [], none⟩

/-- A one-plugin system for the loader fixtures. -/
def sysEx : System :=
  { loader := ⟨[("p1", loadedP1)]⟩, instances := [("p1", bareModule)], fs := fs0 }

/-! ### Helper lemmas -/

theorem lookupA_updateA_self {α : Type} (l : List (String × α)) (id : String) (f : α → α) :
    lookupA id (updateA id f l) = (lookupA id l).map f := by
  induction l with
  | nil => rfl
  | cons kv rest ih =>
    rcases kv with ⟨k', v⟩
    by_cases h : k' = id
    · subst h
      simp [updateA, lookupA]
    · simp [updateA, lookupA, h, ih]

theorem lookupA_updateA_other {α : Type} (l : List (String × α)) (id j : String)
    (f : α → α) (h : j ≠ id) :
    lookupA j (updateA id f l) = lookupA j l := by
  induction l with
  | nil => rfl
  | cons kv rest ih =>
    rcases kv with ⟨k', v⟩
    by_cases hk : k' = id
    · subst hk
      have hkj : k' ≠ j := fun e => h e.symm
      simp [updateA, lookupA, hkj, ih]
    · by_cases hj : k' = j
      · simp [updateA, lookupA, hk, hj, h]
      · simp [updateA, lookupA, hk, hj, ih]

/-! ### Claims -/

/-- C1: the claim says a traversal path always fails with a rejection error
AND that no filesystem location outside `data_dir` is read, written, or
created. The first half holds here, but `resolve_sandboxed_path` runs
`create_dir_all` on the resolved parent BEFORE the containment check: the
request `"../evil/secret.txt"` is rejected with the path-traversal error, yet
the directory `/data/plugin_data/evil` — outside the plugin's `data_dir`
`/data/plugin_data/p1` — has been created by the operation. -/
theorem c1_traversal_rejected_but_dir_created_outside :
    read_file st0 "p1" "../evil/secret.txt" =
      (Except.error "Path traversal denied. Access restricted to plugin data directory.",
       fs0 ++ [(["data", "plugin_data", "evil"], Node.dir)]) ∧
    existsFS st0.fs ["data", "plugin_data", "evil"] = false ∧
    existsFS (read_file st0 "p1" "../evil/secret.txt").2 ["data", "plugin_data", "evil"] = true ∧
    (["data", "plugin_data", "p1"].isPrefixOf ["data", "plugin_data", "evil"]) = false :=
  ⟨rfl, rfl, rfl, rfl⟩

/-- C2: for every plugin registered with `can_write = false`, `write_file`
fails with the permission-denied error and leaves the filesystem unchanged,
for every path string whatsoever — the permission check precedes any path
handling. -/
theorem c2_write_file_permission_denied (st : HostState) (plugin_id path : String)
    (data : List Nat) (perms : PluginFsPermissions)
    (hreg : lookupA plugin_id st.plugin_permissions = some perms)
    (hw : perms.can_write = false) :
    write_file st plugin_id path data =
      (Except.error ("Plugin '" ++ plugin_id ++ "' does not have filesystem:write permission"),
       st.fs) := by
  simp [write_file, hreg, hw]

theorem c2_write_file_permission_denied_witness :
    write_file stReadOnly "p1" "/etc/passwd" [1, 2] =
      (Except.error "Plugin 'p1' does not have filesystem:write permission", fs0) :=
  c2_write_file_permission_denied stReadOnly "p1" "/etc/passwd" [1, 2]
    ⟨true, false, p1DataDir⟩ rfl rfl

/-- C3: the claim says a permission-gated operation is allowed only when the
manifest declares the permission, and in particular that `http_request` for a
plugin without the Network permission does not perform the request. The code
performs the request unconditionally: `manifestP1` declares no permissions at
all (`has_permission Network = false`), yet `http_request` on its behalf
consults the network and returns the response. -/
theorem c3_http_request_performed_without_network_permission :
    manifestP1.has_permission PluginPermission.network = false ∧
    http_request netStub st0 manifestP1.id reqGet =
      Except.ok ⟨200, [], "ok"⟩ :=
  ⟨rfl, rfl⟩

/-- C4 counterexample: the claim says failure of ANY load step — including
the guest's `init` export — returns an error and retains no instance. Here
`init` exists and traps, yet `load_plugin` returns `Ok(())`, the instance is
stored under the plugin id, and the failure is merely logged at `warn`. -/
theorem c4_init_failure_not_rolled_back :
    (load_plugin compileInitFail [] loadedP1).1 = Except.ok () ∧
    lookupA "p1" (load_plugin compileInitFail [] loadedP1).2.1 = some initFailModule ∧
    initFailModule.call "init" "" = Except.error "guest trap in init" ∧
    (load_plugin compileInitFail [] loadedP1).2.2 =
      [("p1", "warn", "Init failed (may not be implemented): guest trap in init")] :=
  ⟨rfl, rfl, rfl, rfl⟩

/-- C4 (amended): if compiling/instantiating the module fails, `load_plugin`
returns an error and the instance table is unchanged; once instantiation
succeeds the load always succeeds — an `init` failure is logged and swallowed
— and the instance is stored keyed by plugin id, leaving other entries'
lookups unchanged. -/
theorem c4_load_plugin_rollback_amended (compile : List Nat → Except String WasmModule)
    (instances : RuntimeInstances) (plugin : LoadedPlugin) :
    (∀ e, compile plugin.wasm_bytes = Except.error e →
      (load_plugin compile instances plugin).1 =
        Except.error ("Failed to create Extism plugin: " ++ e) ∧
      (load_plugin compile instances plugin).2.1 = instances) ∧
    (∀ m, compile plugin.wasm_bytes = Except.ok m →
      (load_plugin compile instances plugin).1 = Except.ok () ∧
      lookupA plugin.manifest.id (load_plugin compile instances plugin).2.1 = some m ∧
      (∀ j, j ≠ plugin.manifest.id →
        lookupA j (load_plugin compile instances plugin).2.1 = lookupA j instances)) := by
  constructor
  · intro e he
    simp [load_plugin, he]
  · intro m hm
    refine ⟨?_, ?_, ?_⟩
    · simp [load_plugin, hm]
    · simp [load_plugin, hm, lookupA_insertA_self]
    · intro j hj
      simp [load_plugin, hm, lookupA_insertA_other _ _ _ _ hj]

theorem c4_load_plugin_rollback_amended_witness :
    (load_plugin compileBroken [] loadedP1).1 =
      Except.error ("Failed to create Extism plugin: " ++ "invalid wasm") ∧
    lookupA "p1" (load_plugin compileInitFail [] loadedP1).2.1 = some initFailModule :=
  ⟨((c4_load_plugin_rollback_amended compileBroken [] loadedP1).1 "invalid wasm" rfl).1,
   ((c4_load_plugin_rollback_amended compileInitFail [] loadedP1).2 initFailModule rfl).2.1⟩

/-- C5: for every loaded plugin whose module does not export
`execute_ai_tool`, `call_ai_tool` returns a call error — never a success —
for every input. -/
theorem c5_call_ai_tool_missing_export_errors (instances : RuntimeInstances)
    (plugin_id input : String) (m : WasmModule)
    (hload : lookupA plugin_id instances = some m)
    (hexp : m.function_exists "execute_ai_tool" = false) :
    call_ai_tool instances plugin_id input =
      Except.error
        ("Plugin " ++ plugin_id ++ " does not support AI tools (no execute_ai_tool function)") := by
  simp [call_ai_tool, hload, hexp]

theorem c5_call_ai_tool_missing_export_errors_witness :
    call_ai_tool [("p1", bareModule)] "p1" "input" =
      Except.error "Plugin p1 does not support AI tools (no execute_ai_tool function)" :=
  c5_call_ai_tool_missing_export_errors [("p1", bareModule)] "p1" "input" bareModule rfl rfl

/-- C6: for every loaded plugin whose module does not export `search`,
`call_search` returns the successful empty result list (not an error), for
every query and every wire codec. -/
theorem c6_call_search_missing_export_empty (codec : JsonCodec)
    (instances : RuntimeInstances) (plugin_id query : String) (m : WasmModule)
    (hload : lookupA plugin_id instances = some m)
    (hexp : m.function_exists "search" = false) :
    call_search codec instances plugin_id query = Except.ok [] := by
  simp [call_search, hload, hexp]

theorem c6_call_search_missing_export_empty_witness :
    call_search trivialCodec [("p1", bareModule)] "p1" "query" = Except.ok [] :=
  c6_call_search_missing_export_empty trivialCodec [("p1", bareModule)] "p1" "query"
    bareModule rfl rfl

/-- C7: `unload_plugin` always returns success; afterwards no instance is
registered under the id; when no instance was active the table is unchanged
(no-op success); other entries' lookups are never affected — the guest's
`shutdown` result is discarded, so its failure cannot change any of this. -/
theorem c7_unload_plugin_total (instances : RuntimeInstances) (plugin_id : String) :
    (unload_plugin instances plugin_id).1 = Except.ok () ∧
    lookupA plugin_id (unload_plugin instances plugin_id).2.1 = none ∧
    (lookupA plugin_id instances = none → (unload_plugin instances plugin_id).2.1 = instances) ∧
    (∀ j, j ≠ plugin_id →
      lookupA j (unload_plugin instances plugin_id).2.1 = lookupA j instances) := by
  cases h : lookupA plugin_id instances with
  | some m =>
    refine ⟨?_, ?_, ?_, ?_⟩
    · simp [unload_plugin, h]
    · simp [unload_plugin, h, lookupA_removeA_self]
    · intro hnone
      exact Option.noConfusion hnone
    · intro j hj
      simp [unload_plugin, h, lookupA_removeA_other _ _ _ hj]
  | none =>
    refine ⟨?_, ?_, ?_, ?_⟩ <;> simp [unload_plugin, h]

theorem c7_unload_plugin_total_witness :
    (unload_plugin [("p1", bareModule)] "p2").1 = Except.ok () ∧
    (unload_plugin [("p1", bareModule)] "p2").2.1 = [("p1", bareModule)] :=
  ⟨(c7_unload_plugin_total [("p1", bareModule)] "p2").1,
   (c7_unload_plugin_total [("p1", bareModule)] "p2").2.2.1 rfl⟩

/-- C8: the claim says OAuth permissions serialize to and parse from the
literal string `oauth:<provider>`. The five unit permissions do use their
literal strings, but the serde derive (`#[serde(rename = "oauth")]` on the
newtype variant) makes `OAuth(provider)` serialize to the single-key object
form and reject the `oauth:<provider>` string — even though the repo's own
CLI validator, registry sample data, and SDK docs all use that string form. -/
theorem c8_oauth_permission_serde_mismatch :
    parsePermission (Json.str "network") = Except.ok PluginPermission.network ∧
    parsePermission (Json.str "filesystem:read") = Except.ok PluginPermission.filesystemRead ∧
    parsePermission (Json.str "filesystem:write") = Except.ok PluginPermission.filesystemWrite ∧
    parsePermission (Json.str "clipboard") = Except.ok PluginPermission.clipboard ∧
    parsePermission (Json.str "notifications") = Except.ok PluginPermission.notifications ∧
    serializePermission PluginPermission.network = Json.str "network" ∧
    serializePermission PluginPermission.filesystemRead = Json.str "filesystem:read" ∧
    serializePermission PluginPermission.filesystemWrite = Json.str "filesystem:write" ∧
    serializePermission PluginPermission.clipboard = Json.str "clipboard" ∧
    serializePermission PluginPermission.notifications = Json.str "notifications" ∧
    parsePermission (Json.str "oauth:github") =
      Except.error "unknown variant: oauth:github" ∧
    serializePermission (PluginPermission.oauth "github") =
      Json.obj [("oauth", Json.str "github")] ∧
    serializePermission (PluginPermission.oauth "github") ≠ Json.str "oauth:github" ∧
    parsePermission (Json.obj [("oauth", Json.str "github")]) =
      Except.ok (PluginPermission.oauth "github") :=
  ⟨rfl, rfl, rfl, rfl, rfl, rfl, rfl, rfl, rfl, rfl, rfl, rfl,
   fun h => Json.noConfusion h, rfl⟩

/-- C9: `PluginLoader::disable_plugin` and `uninstall_plugin` leave the
runtime's instance table untouched; `disable_plugin` flips only the `enabled`
flag of entry `id` (manifest, path and module bytes preserved by the record
update), leaves every other catalog entry's lookup unchanged, and is an error
leaving the catalog unchanged when the id is absent. -/
theorem c9_loader_disable_uninstall_frame (sys : System) (id : String) :
    (sysDisablePlugin sys id).2.instances = sys.instances ∧
    (sysUninstallPlugin sys id).2.instances = sys.instances ∧
    (∀ p, lookupA id sys.loader.plugins = some p →
      (sysDisablePlugin sys id).1 = Except.ok () ∧
      lookupA id (sysDisablePlugin sys id).2.loader.plugins =
        some { p with enabled := false }) ∧
    (∀ j, j ≠ id →
      lookupA j (sysDisablePlugin sys id).2.loader.plugins = lookupA j sys.loader.plugins) ∧
    (lookupA id sys.loader.plugins = none →
      (sysDisablePlugin sys id).1 = Except.error ("Plugin not found: " ++ id) ∧
      (sysDisablePlugin sys id).2.loader = sys.loader) := by
  refine ⟨rfl, rfl, ?_, ?_, ?_⟩
  · intro p hp
    refine ⟨?_, ?_⟩
    · simp [sysDisablePlugin, disable_plugin, hp]
    · simp [sysDisablePlugin, disable_plugin, hp, lookupA_updateA_self]
  · intro j hj
    cases h : lookupA id sys.loader.plugins with
    | some p =>
      simp [sysDisablePlugin, disable_plugin, h, lookupA_updateA_other _ _ _ _ hj]
    | none =>
      simp [sysDisablePlugin, disable_plugin, h]
  · intro h
    constructor <;> simp [sysDisablePlugin, disable_plugin, h]

theorem c9_loader_disable_uninstall_frame_witness :
    (sysDisablePlugin sysEx "p1").2.instances = sysEx.instances ∧
    (sysUninstallPlugin sysEx "p1").2.instances = sysEx.instances ∧
    lookupA "p1" (sysDisablePlugin sysEx "p1").2.loader.plugins =
      some { loadedP1 with enabled := false } :=
  ⟨(c9_loader_disable_uninstall_frame sysEx "p1").1,
   (c9_loader_disable_uninstall_frame sysEx "p1").2.1,
   ((c9_loader_disable_uninstall_frame sysEx "p1").2.2.1 loadedP1 rfl).2⟩

/-- C10: `get_config` is total — its result type carries no error — and
returns the empty default config whenever the per-plugin file is missing or
unreadable, is not JSON, or is JSON that does not parse as a config document;
it consults neither the permission table nor the sandbox filesystem, so no
registration or permission check is involved. -/
theorem c10_get_config_total_default (st : HostState) (plugin_id : String) :
    (lookupA plugin_id st.configs = none → get_config st plugin_id = PluginConfig.default) ∧
    (lookupA plugin_id st.configs = some ConfigContent.notJson →
      get_config st plugin_id = PluginConfig.default) ∧
    (∀ j e, lookupA plugin_id st.configs = some (ConfigContent.jsonVal j) →
      parsePluginConfig j = Except.error e → get_config st plugin_id = PluginConfig.default) ∧
    (∀ perms fs, get_config { st with plugin_permissions := perms, fs := fs } plugin_id =
      get_config st plugin_id) := by
  refine ⟨?_, ?_, ?_, ?_⟩
  · intro h
    simp [get_config, h]
  · intro h
    simp [get_config, h]
  · intro j e hj hp
    simp [get_config, hj, hp]
  · intro perms fs
    rfl

theorem c10_get_config_total_default_witness :
    get_config st0 "unregistered" = PluginConfig.default ∧
    get_config { st0 with plugin_permissions := [], fs := [] } "unregistered" =
      get_config st0 "unregistered" :=
  ⟨(c10_get_config_total_default st0 "unregistered").1 rfl,
   (c10_get_config_total_default st0 "unregistered").2.2.2 [] []⟩

end Launcher
